import Mathlib

/-!
Verification of the flow-engine transformers of python-weka-wrapper
(src/python/weka/flow/transformer.py and src/python/weka/classifiers.py).

The transformers are shallowly embedded as Lean functions over explicit state.
External collaborators (the dataset/model capabilities, the serializer, the
base actor class in weka/flow/base.py which is not under src/) are modelled
from the spec, as marked in the individual doc comments; everything else is a
direct translation of the source.
-/

namespace PWW

/-- Python exception value: a class name and a message. -/
structure PyExn where
  cls : String
  msg : String
deriving Repr, DecidableEq

/-- Result of one Python method call that either returns (for do_execute: an
optional error string, per the source docstrings "None if successful,
otherwise error message") or raises an exception. The state at that moment is
carried alongside so that frame conditions can be stated. -/
inductive PyResult (σ : Type) where
  | ret (err : Option String) (s : σ)
  | exn (e : PyExn) (s : σ)
deriving Repr, DecidableEq

/-- Token (weka.flow.base.Token). Modelled from the spec: base.py is not under
src/; spec section 3 defines a Token as an immutable envelope carrying one
payload value. -/
structure Token (α : Type) where
  payload : α
deriving Repr, DecidableEq

/-- Python 2 numeric value: an int or a float (floats modelled as rationals). -/
inductive PyNum where
  | int (n : Int)
  | float (q : Rat)
deriving Repr, DecidableEq

/-- Numeric value of a Python number (Python compares int and float by value:
5 == 5.0 is True). -/
def PyNum.toRat : PyNum → Rat
  | int n => (n : Rat)
  | float q => q

/-- Python 2 addition: int + int stays int, otherwise float. -/
def PyNum.add : PyNum → PyNum → PyNum
  | int a, int b => int (a + b)
  | a, b => float (a.toRat + b.toRat)

/-- Python 2 subtraction. -/
def PyNum.sub : PyNum → PyNum → PyNum
  | int a, int b => int (a - b)
  | a, b => float (a.toRat - b.toRat)

/-- Python 2 multiplication. -/
def PyNum.mul : PyNum → PyNum → PyNum
  | int a, int b => int (a * b)
  | a, b => float (a.toRat * b.toRat)

/-- Python 2 division: int / int is floor division; division by zero fails
(ZeroDivisionError). -/
def PyNum.div : PyNum → PyNum → Option PyNum
  | int a, int b => if b = 0 then none else some (int (Int.fdiv a b))
  | a, b => if b.toRat = 0 then none else some (float (a.toRat / b.toRat))

/-- Modelled from the spec (section 9): the host eval() narrowed to the safe
arithmetic grammar (numeric literals, + - * /, parentheses). `X` is the
placeholder written "\x7bX\x7d" in the source expressions, substituted
textually before evaluation. -/
inductive AExpr where
  | lit (n : PyNum)
  | X
  | add (a b : AExpr)
  | sub (a b : AExpr)
  | mul (a b : AExpr)
  | div (a b : AExpr)
deriving Repr, DecidableEq

/-- Textual replacement of the placeholder "\x7bX\x7d" by the stringified
value `v` (the .replace calls in transformer.py lines 525-526 and 594). -/
def AExpr.substX : AExpr → PyNum → AExpr
  | .lit n, _ => .lit n
  | .X, v => .lit v
  | .add a b, v => .add (a.substX v) (b.substX v)
  | .sub a b, v => .sub (a.substX v) (b.substX v)
  | .mul a b, v => .mul (a.substX v) (b.substX v)
  | .div a b, v => .div (a.substX v) (b.substX v)

/-- Evaluation of the arithmetic expression; none models a raised evaluation
error (an unreplaced placeholder is not a valid Python name, and division by
zero raises). -/
def AExpr.evalA : AExpr → Option PyNum
  | .lit n => some n
  | .X => none
  | .add a b => do pure (PyNum.add (← a.evalA) (← b.evalA))
  | .sub a b => do pure (PyNum.sub (← a.evalA) (← b.evalA))
  | .mul a b => do pure (PyNum.mul (← a.evalA) (← b.evalA))
  | .div a b => do PyNum.div (← a.evalA) (← b.evalA)

/-- Exception raised when eval() fails on the substituted expression string. -/
def evalExn : PyExn := ⟨"EvalError", "eval() raised"⟩

/-- KeyError raised by a Python dict lookup of an absent key. -/
def keyError (name : String) : PyExn := ⟨"KeyError", name⟩

/-- Shared key/value storage: the Python dict carried by the storage handler
(spec section 4.3), modelled as an association list whose set replaces an
existing binding. -/
abbrev Storage (α : Type) := List (String × α)

/-- Dict lookup, none when the key is absent. -/
def Storage.get? {α : Type} : Storage α → String → Option α
  | [], _ => none
  | (k, v) :: rest, key => if k = key then some v else Storage.get? rest key

/-- Dict assignment: replace the binding if present, else append. -/
def Storage.set {α : Type} : Storage α → String → α → Storage α
  | [], key, v => [(key, v)]
  | (k, w) :: rest, key, v =>
    if k = key then (k, v) :: rest else (k, w) :: Storage.set rest key v

/-- Dict pop with default None: removes the binding if present, no-op if
absent. -/
def Storage.pop {α : Type} : Storage α → String → Storage α
  | [], _ => []
  | (k, w) :: rest, key => if k = key then rest else (k, w) :: Storage.pop rest key

namespace SetStorageValue

/-- State of the SetStorageValue transformer visible to do_execute:
the attached storage handler (none = no handler), the current input token,
the base-class output queue (spec section 4.4), and the resolved
storage_name option. -/
structure St (α : Type) where
  storagehandler : Option (Storage α)
  input : Token α
  output : List (Token α)
  storage_name : String
deriving Repr, DecidableEq

/-- Translation of SetStorageValue.do_execute (transformer.py lines 314-324). -/
def do_execute {α : Type} (s : St α) : PyResult (St α) :=
  match s.storagehandler with
  | none => .ret (some "No storage handler available!") s
  | some st =>
    .ret none { s with
      storagehandler := some (st.set s.storage_name s.input.payload),
      output := s.output ++ [s.input] }

end SetStorageValue

namespace DeleteStorageValue

/-- State of the DeleteStorageValue transformer visible to do_execute. -/
structure St (α : Type) where
  storagehandler : Option (Storage α)
  input : Token α
  output : List (Token α)
  storage_name : String
deriving Repr, DecidableEq

/-- Translation of DeleteStorageValue.do_execute (transformer.py lines
377-387). -/
def do_execute {α : Type} (s : St α) : PyResult (St α) :=
  match s.storagehandler with
  | none => .ret (some "No storage handler available!") s
  | some st =>
    .ret none { s with
      storagehandler := some (st.pop s.storage_name),
      output := s.output ++ [s.input] }

end DeleteStorageValue

namespace InitStorageValue

/-- State of the InitStorageValue transformer visible to do_execute; the
value option is the expression handed to eval(). -/
structure St (α : Type) where
  storagehandler : Option (Storage PyNum)
  input : Token α
  output : List (Token α)
  storage_name : String
  value : AExpr
deriving Repr, DecidableEq

/-- Translation of InitStorageValue.do_execute (transformer.py lines
446-456): stores eval(value) under the configured name. -/
def do_execute {α : Type} (s : St α) : PyResult (St α) :=
  match s.storagehandler with
  | none => .ret (some "No storage handler available!") s
  | some st =>
    match s.value.evalA with
    | none => .exn evalExn s
    | some v =>
      .ret none { s with
        storagehandler := some (st.set s.storage_name v),
        output := s.output ++ [s.input] }

end InitStorageValue

namespace UpdateStorageValue

/-- State of the UpdateStorageValue transformer visible to do_execute. -/
structure St (α : Type) where
  storagehandler : Option (Storage PyNum)
  input : Token α
  output : List (Token α)
  storage_name : String
  expression : AExpr
deriving Repr, DecidableEq

/-- Translation of UpdateStorageValue.do_execute (transformer.py lines
517-529): replaces the placeholder in the expression by the current storage
value (a direct dict lookup, which raises KeyError when the name is absent),
evaluates the result and stores it back. -/
def do_execute {α : Type} (s : St α) : PyResult (St α) :=
  match s.storagehandler with
  | none => .ret (some "No storage handler available!") s
  | some st =>
    match st.get? s.storage_name with
    | none => .exn (keyError s.storage_name) s
    | some cur =>
      match (s.expression.substX cur).evalA with
      | none => .exn evalExn s
      | some v =>
        .ret none { s with
          storagehandler := some (st.set s.storage_name v),
          output := s.output ++ [s.input] }

end UpdateStorageValue

namespace MathExpression

/-- State of the MathExpression transformer visible to do_execute. -/
structure St where
  expression : AExpr
  input : Token PyNum
  output : List (Token PyNum)
deriving Repr, DecidableEq

/-- Translation of MathExpression.do_execute (transformer.py lines 587-596):
substitutes the stringified input payload for the placeholder, evaluates, and
appends one token with the result. -/
def do_execute (s : St) : PyResult St :=
  match (s.expression.substX s.input.payload).evalA with
  | none => .exn evalExn s
  | some v => .ret none { s with output := s.output ++ [Token.mk v] }

end MathExpression

/-- Modelled from the spec (section 6 Dataset capability): a dataset has a
schema (an abstract identity compared by the schema-equality check) and
finitely many rows (rows abstracted to numbers). -/
structure Dataset where
  schema : Nat
  rows : List Nat
deriving Repr, DecidableEq

/-- The single-quote character, for error strings taken verbatim from the
source. -/
def sq : String := "\x27"

/-- Modelled from the spec: the file system as consulted by os.path.exists /
os.path.isfile and the external Loader capability (spec section 6) — a path
names nothing, a directory, or a loadable dataset file. -/
inductive FileEntry where
  | missing
  | directory
  | file (d : Dataset)
deriving Repr, DecidableEq

/-- The file system as a mapping from paths to entries. -/
abbrev FileSys := String → FileEntry

namespace LoadDataset

/-- Payload of tokens produced by LoadDataset: the whole dataset (batch mode)
or a single row (incremental mode). -/
inductive LPayload where
  | dataset (d : Dataset)
  | row (r : Nat)
deriving Repr, DecidableEq

/-- State of the LoadDataset transformer: the resolved incremental option,
the current input token (a file path), the base-class output queue (spec
section 4.4), and the _iterator field — none when cleared, otherwise the
remaining rows of the open incremental loader. The _loader field only feeds
the iterator and is not tracked separately. -/
structure St where
  incremental : Bool
  input : Token String
  output : List (Token LPayload)
  iterator : Option (List Nat)
deriving Repr, DecidableEq

/-- Translation of LoadDataset.do_execute (transformer.py lines 200-220):
checks the path, then either enqueues one token with the full dataset (batch
mode) or opens the row iterator (incremental mode). The custom-loader option
is subsumed by the FileSys model. -/
def do_execute (fs : FileSys) (s : St) : PyResult St :=
  let fname := s.input.payload
  match fs fname with
  | .missing => .ret (some ("File " ++ sq ++ fname ++ sq ++ " does not exist!")) s
  | .directory => .ret (some ("Location " ++ sq ++ fname ++ sq ++ " is not a file!")) s
  | .file d =>
    if s.incremental then
      .ret none { s with iterator := some d.rows }
    else
      .ret none { s with output := s.output ++ [Token.mk (LPayload.dataset d)] }

/-- Translation of LoadDataset.has_output (transformer.py lines 222-228): the
base-class check (output queue not empty, spec section 4.4) or the iterator
field being set. -/
def has_output (s : St) : Bool :=
  !s.output.isEmpty || s.iterator.isSome

/-- Translation of LoadDataset.output (transformer.py lines 230-245): with an
open iterator, next() either yields the next row as a token, or raises on
exhaustion — the caught exception clears the iterator and the call returns
None. Without an iterator the base-class queue is popped (spec section
4.4). -/
def output (s : St) : Option (Token LPayload) × St :=
  match s.iterator with
  | some (r :: rest) => (some (Token.mk (LPayload.row r)), { s with iterator := some rest })
  | some [] => (none, { s with iterator := none })
  | none =>
    match s.output with
    | [] => (none, s)
    | t :: ts => (some t, { s with output := ts })

/-- Calls output() n times in sequence, collecting each call's result. -/
def drain : Nat → St → List (Option (Token LPayload)) × St
  | 0, s => ([], s)
  | n + 1, s =>
    let (t, s1) := output s
    let (ts, s2) := drain n s1
    (t :: ts, s2)

end LoadDataset

/-- Payloads as seen by the check_input type dispatch; className gives what
the host reports via get_classname / the class __name__ attribute. -/
inductive Payload where
  | instances (d : Dataset)
  | pstr (s : String)
  | pint (n : Int)
  | pfloat (q : Rat)
  | pcontainer
  | pevaluation
deriving Repr, DecidableEq

/-- The class name of a payload as rendered into the exception messages. -/
def Payload.className : Payload → String
  | .instances _ => "Instances"
  | .pstr _ => "str"
  | .pint _ => "int"
  | .pfloat _ => "float"
  | .pcontainer => "ModelContainer"
  | .pevaluation => "Evaluation"

/-- The isinstance(payload, Instances) test. -/
def Payload.isInstances : Payload → Bool
  | .instances _ => true
  | _ => false

/-- The isinstance(payload, str) test. -/
def Payload.isStr : Payload → Bool
  | .pstr _ => true
  | _ => false

/-- Translation of Train.check_input (transformer.py lines 765-775): accepts
only Instances payloads, otherwise raises naming the actor and the payload
class. -/
def Train.check_input (fullName : String) (t : Token Payload) : Option PyExn :=
  if t.payload.isInstances then none
  else some ⟨"Exception", fullName ++ ": Unhandled data type: " ++ t.payload.className⟩

/-- Translation of Filter.check_input (transformer.py lines 882-892):
rejects a missing token, accepts only Instances payloads. -/
def Filter.check_input (fullName : String) (t : Option (Token Payload)) : Option PyExn :=
  match t with
  | none => some ⟨"Exception", fullName ++ ": No token provided!"⟩
  | some tok =>
    if tok.payload.isInstances then none
    else some ⟨"Exception", fullName ++ ": Unhandled class: " ++ tok.payload.className⟩

/-- Translation of LoadDataset.check_input (transformer.py lines 188-198):
rejects a missing token, accepts only string payloads. -/
def LoadDataset.check_input (fullName : String) (t : Option (Token Payload)) : Option PyExn :=
  match t with
  | none => some ⟨"Exception", fullName ++ ": No token provided!"⟩
  | some tok =>
    if tok.payload.isStr then none
    else some ⟨"Exception", fullName ++ ": Unhandled class: " ++ tok.payload.className⟩

/-- Modelled from the spec (section 4.4, base.py not under src/): the actor
lifecycle runs check_input before every do_execute; a raised type-mismatch
exception means do_execute is not invoked for that token and the actor state
is left as it was. -/
def lifecycleStep {σ : Type} (check : Option PyExn) (doExec : σ → PyResult σ)
    (s : σ) : PyResult σ :=
  match check with
  | some e => .exn e s
  | none => doExec s

/-- Kind of a configured setup object, driving the isinstance dispatch of
Train.do_execute and CrossValidate.do_execute. -/
inductive MKind where
  | classifier
  | clusterer
  | associator
  | filterKind
  | other (cls : String)
deriving Repr, DecidableEq

/-- A model/filter object on the Python heap: its kind, its configuration
identity, and its fitted state — the schema of the data it was last built on
(none = never fitted). Modelled from the spec (section 6 Model capability):
the wrapper classes live outside src/. -/
structure MObj where
  kind : MKind
  config : String
  fitted : Option Nat
deriving Repr, DecidableEq

/-- Class name of a setup object as rendered into error messages by
utils.get_classname. -/
def MObj.className : MObj → String
  | ⟨.classifier, _, _⟩ => "Classifier"
  | ⟨.clusterer, _, _⟩ => "Clusterer"
  | ⟨.associator, _, _⟩ => "Associator"
  | ⟨.filterKind, _, _⟩ => "Filter"
  | ⟨.other c, _, _⟩ => c

/-- The Python heap of model objects; objects are shared by reference (spec
section 5) and references are indices into the heap. -/
abbrev Heap := List MObj

/-- Modelled from the spec (section 6): Model.copy() — make_copy
(weka.core.classes, not under src/) allocates a fresh object with the same
configuration and fitted state, leaving the original untouched. Returns the
extended heap and the fresh reference; a dangling reference (never reached
under the theorems below) leaves the heap unchanged. -/
def make_copy (h : Heap) (r : Nat) : Heap × Nat :=
  match h[r]? with
  | some o => (h ++ [o], h.length)
  | none => (h, r)

/-- Modelled from the spec (section 6): build_classifier / build_clusterer /
build_associations / inputformat fit the object on a dataset in place,
recording the schema it was fitted on. -/
def buildOn (h : Heap) (r : Nat) (schema : Nat) : Heap :=
  match h[r]? with
  | some o => h.set r { o with fitted := some schema }
  | none => h

/-- ModelContainer (weka.flow.container, not under src/). Modelled from the
spec (section 3): a structured payload bundling a model with an optional
training-data schema. -/
structure ModelContainer (μ η : Type) where
  model : μ
  header : Option η
deriving Repr, DecidableEq

/-- Extracts the heap component of a do_execute result, whether it returned
or raised. -/
def heapOf {β : Type} : PyResult (Heap × β) → Heap
  | .ret _ (h, _) => h
  | .exn _ (h, _) => h

namespace Train

/-- Translation of Train.do_execute (transformer.py lines 777-799) over the
explicit heap: dispatch on the kind of the configured setup template, make a
copy, build the copy on the incoming data, and forward a ModelContainer with
the trained copy and the dataset header (Instances.template_instances keeps
only the schema). Any other kind returns the error string and forwards
nothing. -/
def do_execute (h : Heap) (setup : Nat) (data : Dataset)
    (out : List (Token (ModelContainer Nat Nat))) :
    PyResult (Heap × List (Token (ModelContainer Nat Nat))) :=
  match h[setup]? with
  | none => .exn ⟨"NameError", "dangling reference"⟩ (h, out)
  | some cls =>
    match cls.kind with
    | .classifier =>
      let (h1, c) := make_copy h setup
      let h2 := buildOn h1 c data.schema
      .ret none (h2, out ++ [Token.mk ⟨c, some data.schema⟩])
    | .clusterer =>
      let (h1, c) := make_copy h setup
      let h2 := buildOn h1 c data.schema
      .ret none (h2, out ++ [Token.mk ⟨c, some data.schema⟩])
    | .associator =>
      let (h1, c) := make_copy h setup
      let h2 := buildOn h1 c data.schema
      .ret none (h2, out ++ [Token.mk ⟨c, some data.schema⟩])
    | _ => .ret (some ("Unhandled class: " ++ cls.className)) (h, out)

/-- Runs Train.do_execute once per dataset in the list, threading the heap
(the output queues are irrelevant to the heap). -/
def trainMany (setup : Nat) : Heap → List Dataset → Heap
  | h, [] => h
  | h, d :: ds => trainMany setup (heapOf (do_execute h setup d [])) ds

end Train

namespace Filter

/-- The private execution state of the Filter transformer: the _filter field
(reference to the fitted copy, none before the first execution) and the
_header field (the cached schema, from Instances.template_instances). -/
structure St where
  filter : Option Nat
  header : Option Nat
deriving Repr, DecidableEq

/-- Modelled from the spec (section 6): Instances.equal_headers (dataset.py,
not under src/) returns None when the schemas are equal and a message
otherwise. -/
def equal_headers (hdr : Nat) (d : Dataset) : Option String :=
  if hdr = d.schema then none else some "Headers differ"

/-- The filtered dataset forwarded by Filter: the external filter engine is a
black box (spec section 1), so the payload records which fitted filter was
applied to which data. -/
structure FilteredData where
  byFilter : Nat
  src : Dataset
deriving Repr, DecidableEq

/-- The refit condition of Filter.do_execute (transformer.py line 902):
"(self._filter is None) or self._header.equal_headers(data) is not None".
Reading equal_headers off a None header raises AttributeError (a state never
reached from a fresh actor). -/
def refitCheck (s : St) (data : Dataset) : Except PyExn Bool :=
  match s.filter with
  | none => .ok true
  | some _ =>
    match s.header with
    | none => .error ⟨"AttributeError", "NoneType object has no attribute equal_headers"⟩
    | some hd => .ok (equal_headers hd data).isSome

/-- Translation of Filter.do_execute (transformer.py lines 894-908): when the
refit condition holds, cache the header, fit a fresh copy of the configured
filter on the data; in either case forward one token with the filtered
data. -/
def do_execute (h : Heap) (filterOpt : Nat) (s : St) (data : Dataset)
    (out : List (Token FilteredData)) :
    PyResult (Heap × St × List (Token FilteredData)) :=
  match refitCheck s data with
  | .error e => .exn e (h, s, out)
  | .ok true =>
    let (h1, c) := make_copy h filterOpt
    let h2 := buildOn h1 c data.schema
    .ret none (h2, ⟨some c, some data.schema⟩, out ++ [Token.mk ⟨c, data⟩])
  | .ok false =>
    match s.filter with
    | some f => .ret none (h, s, out ++ [Token.mk ⟨f, data⟩])
    | none => .exn ⟨"AttributeError", "NoneType object is not callable"⟩ (h, s, out)

/-- Runs Filter.do_execute once per dataset, threading heap and state, and
counts the executions on which the refit condition held (the refit counter of
spec section 8). A raised exception stops the run. -/
def run (filterOpt : Nat) : Heap → St → List Dataset →
    Heap × St × List (Token FilteredData) × Nat
  | h, s, [] => (h, s, [], 0)
  | h, s, d :: ds =>
    let step : Nat := match refitCheck s d with | .ok true => 1 | _ => 0
    match do_execute h filterOpt s d [] with
    | .ret _ (h1, s1, out1) =>
      let (h2, s2, out2, n) := run filterOpt h1 s1 ds
      (h2, s2, out1 ++ out2, step + n)
    | .exn _ (h1, s1, out1) => (h1, s1, out1, 0)

end Filter

namespace CrossValidate

/-- Parameter count of Evaluation.crossvalidate_model as defined in
src/python/weka/classifiers.py lines 336-347: classifier, data, num_folds,
random — four parameters besides self. -/
def crossvalidateModelParams : Nat := 4

/-- Number of positional arguments CrossValidate.do_execute passes to
Evaluation.crossvalidate_model at transformer.py lines 1101-1106:
classifier, data, folds, random, prediction output — five. -/
def crossvalidateCallArgs : Nat := 5

/-- Python positional-call semantics: a call whose positional argument count
differs from the parameter count raises TypeError (Python 2 counts self in
the message). -/
def pyArity (params args : Nat) : Option PyExn :=
  if args = params then none
  else some ⟨"TypeError",
    "crossvalidate_model() takes exactly " ++ toString (params + 1) ++
    " arguments (" ++ toString (args + 1) ++ " given)"⟩

/-- The Evaluation object built by the classifier branch: priors initialized
from the data, discard_predictions then assigned on it. -/
structure EvalObj where
  dataSchema : Nat
  discard_predictions : Bool
deriving Repr, DecidableEq

/-- Payload of the token CrossValidate forwards: the Evaluation object for a
classifier, the log-likelihood for a clusterer. -/
inductive CVPayload where
  | evaluation (e : EvalObj)
  | loglikelihood (q : Rat)
deriving Repr, DecidableEq

/-- Translation of CrossValidate.do_execute (transformer.py lines 1089-1119).
The external cross-validation engine for clusterers
(ClusterEvaluation.crossvalidate_model, clusterers.py not under src/) is
modelled from the spec as a supplied deterministic function llh of setup,
data, folds and seed. The classifier branch faithfully performs the call of
Evaluation.crossvalidate_model with five positional arguments against its
four-parameter definition in classifiers.py. -/
def do_execute (llh : String → Dataset → Nat → Int → Rat)
    (h : Heap) (setup : Nat) (folds : Nat) (seed : Int) (discard : Bool)
    (data : Dataset) (out : List (Token CVPayload)) :
    PyResult (Heap × List (Token CVPayload)) :=
  match h[setup]? with
  | none => .exn ⟨"NameError", "dangling reference"⟩ (h, out)
  | some cls =>
    match cls.kind with
    | .classifier =>
      let (h1, _c) := make_copy h setup
      let evl : EvalObj := ⟨data.schema, discard⟩
      match pyArity crossvalidateModelParams crossvalidateCallArgs with
      | some e => .exn e (h1, out)
      | none => .ret none (h1, out ++ [Token.mk (CVPayload.evaluation evl)])
    | .clusterer =>
      let (h1, _c) := make_copy h setup
      .ret none (h1, out ++ [Token.mk (CVPayload.loglikelihood (llh cls.config data folds seed))])
    | _ => .ret (some ("Unhandled class: " ++ cls.className)) (h, out)

end CrossValidate

namespace ModelReader

/-- A deserialized object as produced by the external Serializer (spec
section 6; serialization.read_all is not under src/): a recognized model
object, a dataset schema, or anything else. -/
inductive SerObj where
  | classifierObj (config : String)
  | clustererObj (config : String)
  | schemaObj (schema : Nat)
  | otherObj (cls : String)
deriving Repr, DecidableEq

/-- The javabridge.is_instance_of(obj, "weka/classifiers/Classifier") test. -/
def SerObj.isClassifier : SerObj → Bool
  | .classifierObj _ => true
  | _ => false

/-- The javabridge.is_instance_of(obj, "weka/clusterers/Clusterer") test. -/
def SerObj.isClusterer : SerObj → Bool
  | .clustererObj _ => true
  | _ => false

/-- Class name of a deserialized object (utils.get_classname) for the error
message. -/
def SerObj.className : SerObj → String
  | .classifierObj c => c
  | .clustererObj c => c
  | .schemaObj _ => "Instances"
  | .otherObj c => c

/-- Modelled from the spec: wrapping a deserialized object as Instances
(weka.core.dataset, not under src/) succeeds only on a schema object,
raising otherwise. -/
def asSchema : SerObj → Option Nat
  | .schemaObj n => some n
  | _ => none

/-- Translation of ModelReader.do_execute (transformer.py lines 1223-1248),
with the deserialized contents of the file (serialization.read_all) supplied
explicitly: one recognized object yields a container with the model only, two
yield model plus header, any other count returns the count-mismatch error
string with no token. -/
def do_execute (fname : String) (data : List SerObj)
    (out : List (Token (ModelContainer SerObj Nat))) :
    PyResult (List (Token (ModelContainer SerObj Nat))) :=
  match data with
  | [d0] =>
    if d0.isClassifier then
      .ret none (out ++ [Token.mk ⟨d0, none⟩])
    else if d0.isClusterer then
      .ret none (out ++ [Token.mk ⟨d0, none⟩])
    else
      .ret (some ("Unhandled class: " ++ d0.className)) out
  | [d0, d1] =>
    if d0.isClassifier then
      match asSchema d1 with
      | some sch => .ret none (out ++ [Token.mk ⟨d0, some sch⟩])
      | none => .exn ⟨"TypeError", "not an Instances object"⟩ out
    else if d0.isClusterer then
      match asSchema d1 with
      | some sch => .ret none (out ++ [Token.mk ⟨d0, some sch⟩])
      | none => .exn ⟨"TypeError", "not an Instances object"⟩ out
    else
      .ret (some ("Unhandled class: " ++ d0.className)) out
  | _ =>
    .ret (some ("Expected 1 or 2 objects, but got " ++ toString data.length ++
      " instead reading: " ++ fname)) out

end ModelReader

/-! Helper lemmas about heap lookups. -/

/-- A successful lookup bounds the index. -/
theorem lt_of_lookup_some {α : Type} {l : List α} {n : Nat} {a : α}
    (h : l[n]? = some a) : n < l.length := by
  by_contra hn
  rw [List.getElem?_eq_none (by omega)] at h
  exact Option.noConfusion h

/-- Lookups below the original length are unchanged by appending on the
right. -/
theorem lookup_append_left {α : Type} (l l2 : List α) (n : Nat)
    (hn : n < l.length) : (l ++ l2)[n]? = l[n]? := by
  induction l generalizing n with
  | nil => simp at hn
  | cons x xs ih =>
    cases n with
    | zero => simp
    | succ m =>
      simp only [List.cons_append, List.getElem?_cons_succ]
      exact ih m (by simpa using hn)

/-- Looking up the element just appended. -/
theorem lookup_append_self {α : Type} (l : List α) (a : α) :
    (l ++ [a])[l.length]? = some a := by
  induction l with
  | nil => rfl
  | cons x xs ih => simp [ih]

/-- Setting the element just appended. -/
theorem set_append_self {α : Type} (l : List α) (a b : α) :
    (l ++ [a]).set l.length b = l ++ [b] := by
  induction l with
  | nil => rfl
  | cons x xs ih =>
    show x :: (xs ++ [a]).set xs.length b = x :: (xs ++ [b])
    rw [ih]

/-- Copy-then-build on a valid reference: one fresh object is appended, fitted
on the data, and every existing heap cell is untouched. -/
theorem copy_build_eq {h : Heap} {r : Nat} {o : MObj} (hr : h[r]? = some o)
    (sch : Nat) :
    buildOn (make_copy h r).1 (make_copy h r).2 sch =
      h ++ [⟨o.kind, o.config, some sch⟩] := by
  have hmc : make_copy h r = (h ++ [o], h.length) := by simp [make_copy, hr]
  rw [hmc]
  simp only [buildOn, lookup_append_self]
  rw [set_append_self]

/-- Train.do_execute never mutates the heap cell of the setup template. -/
theorem train_heap_preserved (h : Heap) (setup : Nat) (data : Dataset)
    (out : List (Token (ModelContainer Nat Nat))) :
    (heapOf (Train.do_execute h setup data out))[setup]? = h[setup]? := by
  cases hset : h[setup]? with
  | none => simp [Train.do_execute, hset, heapOf]
  | some cls =>
    have hlt := lt_of_lookup_some hset
    have hgrow : ∀ o : MObj, (h ++ [o])[setup]? = some cls := by
      intro o
      rw [lookup_append_left _ _ _ hlt]
      exact hset
    cases hk : cls.kind <;>
      simp [Train.do_execute, hset, hk, heapOf, copy_build_eq hset, hgrow]

/-- Filter.do_execute never mutates the heap cell of the filter template. -/
theorem filter_heap_preserved (h : Heap) (fo : Nat) (s : Filter.St)
    (data : Dataset) (out : List (Token Filter.FilteredData)) :
    (heapOf (Filter.do_execute h fo s data out))[fo]? = h[fo]? := by
  cases hc : Filter.refitCheck s data with
  | error e => simp [Filter.do_execute, hc, heapOf]
  | ok b =>
    cases b with
    | false =>
      cases hf : s.filter <;> simp [Filter.do_execute, hc, hf, heapOf]
    | true =>
      cases hfo : h[fo]? with
      | none => simp [Filter.do_execute, hc, heapOf, make_copy, buildOn, hfo]
      | some o =>
        have hlt := lt_of_lookup_some hfo
        simp only [Filter.do_execute, hc, heapOf, copy_build_eq hfo]
        rw [lookup_append_left _ _ _ hlt]
        exact hfo

/-- CrossValidate.do_execute never mutates the heap cell of the setup
template. -/
theorem crossvalidate_heap_preserved (llh : String → Dataset → Nat → Int → Rat)
    (h : Heap) (setup : Nat) (folds : Nat) (seed : Int) (discard : Bool)
    (data : Dataset) (out : List (Token CrossValidate.CVPayload)) :
    (heapOf (CrossValidate.do_execute llh h setup folds seed discard data out))[setup]? =
      h[setup]? := by
  cases hset : h[setup]? with
  | none => simp [CrossValidate.do_execute, hset, heapOf]
  | some cls =>
    have hlt := lt_of_lookup_some hset
    have hmc : make_copy h setup = (h ++ [cls], h.length) := by simp [make_copy, hset]
    have hgrow : (h ++ [cls])[setup]? = some cls := by
      rw [lookup_append_left _ _ _ hlt]; exact hset
    cases hk : cls.kind <;>
      simp [CrossValidate.do_execute, hset, hk, heapOf, hmc,
        CrossValidate.pyArity, CrossValidate.crossvalidateModelParams,
        CrossValidate.crossvalidateCallArgs, hgrow]

/-- trainMany never mutates the heap cell of the setup template. -/
theorem trainMany_heap_preserved (setup : Nat) (h : Heap) (ds : List Dataset) :
    (Train.trainMany setup h ds)[setup]? = h[setup]? := by
  induction ds generalizing h with
  | nil => rfl
  | cons d rest ih =>
    show (Train.trainMany setup (heapOf (Train.do_execute h setup d [])) rest)[setup]? = _
    rw [ih, train_heap_preserved]

/-- Building the freshly appended copy touches only that copy. -/
theorem buildOn_append (l : Heap) (o : MObj) (sch : Nat) :
    buildOn (l ++ [o]) l.length sch = l ++ [⟨o.kind, o.config, some sch⟩] := by
  simp only [buildOn, lookup_append_self]
  rw [set_append_self]

/-- Filter execution from the fresh state (no fitted filter yet): the refit
branch runs — exactly one fresh copy of the configured filter is allocated
and fitted on the data, and the header is cached. -/
theorem filter_step_fresh {h : Heap} {fo : Nat} {tmpl : MObj}
    (hfo : h[fo]? = some tmpl) (d : Dataset)
    (out : List (Token Filter.FilteredData)) :
    Filter.do_execute h fo ⟨none, none⟩ d out =
      .ret none (h ++ [⟨tmpl.kind, tmpl.config, some d.schema⟩],
        ⟨some h.length, some d.schema⟩, out ++ [Token.mk ⟨h.length, d⟩]) := by
  have hmc : make_copy h fo = (h ++ [tmpl], h.length) := by simp [make_copy, hfo]
  simp [Filter.do_execute, Filter.refitCheck, hmc, buildOn_append]

/-- Filter execution when the cached header equals the incoming schema: the
already-fitted filter is reused — heap and state are unchanged. -/
theorem filter_step_same (h : Heap) (fo f hd : Nat) (d : Dataset)
    (hhd : hd = d.schema) (out : List (Token Filter.FilteredData)) :
    Filter.do_execute h fo ⟨some f, some hd⟩ d out =
      .ret none (h, ⟨some f, some hd⟩, out ++ [Token.mk ⟨f, d⟩]) := by
  simp [Filter.do_execute, Filter.refitCheck, Filter.equal_headers, hhd]

/-- Filter execution when the cached header differs from the incoming schema:
the refit branch runs again, once. -/
theorem filter_step_diff {h : Heap} {fo : Nat} {tmpl : MObj}
    (hfo : h[fo]? = some tmpl) (f hd : Nat) (d : Dataset)
    (hhd : hd ≠ d.schema) (out : List (Token Filter.FilteredData)) :
    Filter.do_execute h fo ⟨some f, some hd⟩ d out =
      .ret none (h ++ [⟨tmpl.kind, tmpl.config, some d.schema⟩],
        ⟨some h.length, some d.schema⟩, out ++ [Token.mk ⟨h.length, d⟩]) := by
  have hmc : make_copy h fo = (h ++ [tmpl], h.length) := by simp [make_copy, hfo]
  simp [Filter.do_execute, Filter.refitCheck, Filter.equal_headers, hhd, hmc,
    buildOn_append]

/-! Theorems. -/

/-- C4: for each of SetStorageValue, DeleteStorageValue, InitStorageValue and
UpdateStorageValue, whenever no storage handler is attached, do_execute
returns the error string "No storage handler available!" (it does not raise),
and the state — storage contents and output queue alike — is exactly the one
it started from. -/
theorem storage_actors_no_handler {α : Type}
    (s1 : SetStorageValue.St α) (s2 : DeleteStorageValue.St α)
    (s3 : InitStorageValue.St α) (s4 : UpdateStorageValue.St α)
    (h1 : s1.storagehandler = none) (h2 : s2.storagehandler = none)
    (h3 : s3.storagehandler = none) (h4 : s4.storagehandler = none) :
    SetStorageValue.do_execute s1 = .ret (some "No storage handler available!") s1 ∧
    DeleteStorageValue.do_execute s2 = .ret (some "No storage handler available!") s2 ∧
    InitStorageValue.do_execute s3 = .ret (some "No storage handler available!") s3 ∧
    UpdateStorageValue.do_execute s4 = .ret (some "No storage handler available!") s4 := by
  refine ⟨?_, ?_, ?_, ?_⟩ <;>
    simp [SetStorageValue.do_execute, DeleteStorageValue.do_execute,
      InitStorageValue.do_execute, UpdateStorageValue.do_execute, h1, h2, h3, h4]

/-- Witness for C4 at concrete states. -/
theorem storage_actors_no_handler_witness :
    SetStorageValue.do_execute (α := Nat) ⟨none, ⟨0⟩, [], "x"⟩ =
      .ret (some "No storage handler available!") ⟨none, ⟨0⟩, [], "x"⟩ ∧
    DeleteStorageValue.do_execute (α := Nat) ⟨none, ⟨0⟩, [], "x"⟩ =
      .ret (some "No storage handler available!") ⟨none, ⟨0⟩, [], "x"⟩ ∧
    InitStorageValue.do_execute (α := Nat) ⟨none, ⟨0⟩, [], "x", .lit (.int 1)⟩ =
      .ret (some "No storage handler available!") ⟨none, ⟨0⟩, [], "x", .lit (.int 1)⟩ ∧
    UpdateStorageValue.do_execute (α := Nat) ⟨none, ⟨0⟩, [], "x", .X⟩ =
      .ret (some "No storage handler available!") ⟨none, ⟨0⟩, [], "x", .X⟩ :=
  storage_actors_no_handler _ _ _ _ rfl rfl rfl rfl

/-- C9: UpdateStorageValue with a storage handler attached but the configured
storage name absent raises KeyError from the direct dict lookup instead of
returning an error string, leaving storage contents and output queue exactly
as they were; and the no-error branch is reachable only when the key is
present. -/
theorem update_storage_value_missing_key {α : Type} (s : UpdateStorageValue.St α)
    (st : Storage PyNum) (hh : s.storagehandler = some st)
    (hk : st.get? s.storage_name = none) :
    UpdateStorageValue.do_execute s = .exn (keyError s.storage_name) s ∧
    (∀ (t r : UpdateStorageValue.St α), UpdateStorageValue.do_execute t = .ret none r →
      ∃ (tst : Storage PyNum) (v : PyNum),
        t.storagehandler = some tst ∧ tst.get? t.storage_name = some v) := by
  constructor
  · simp [UpdateStorageValue.do_execute, hh, hk]
  · intro t r hret
    unfold UpdateStorageValue.do_execute at hret
    cases htst : t.storagehandler with
    | none => simp [htst] at hret
    | some tst =>
      simp only [htst] at hret
      cases hv : tst.get? t.storage_name with
      | none => simp [hv] at hret
      | some v => exact ⟨tst, v, rfl, hv⟩

/-- Witness for C9 at a concrete state: storage holds only "other". -/
theorem update_storage_value_missing_key_witness :
    UpdateStorageValue.do_execute (α := Nat)
      ⟨some [("other", .int 7)], ⟨0⟩, [], "counter", .X⟩ =
      .exn (keyError "counter") ⟨some [("other", .int 7)], ⟨0⟩, [], "counter", .X⟩ :=
  (update_storage_value_missing_key (α := Nat)
    ⟨some [("other", .int 7)], ⟨0⟩, [], "counter", .X⟩
    [("other", PyNum.int 7)] rfl (by decide)).1

/-- C8: MathExpression with expression "1 + \x7bX\x7d" and input payload 4
enqueues exactly one output token; its payload is the Python number 5
(int + int stays int in the host evaluator), numerically equal to 5.0. -/
theorem math_expression_one_plus_four :
    MathExpression.do_execute ⟨.add (.lit (.int 1)) .X, ⟨.int 4⟩, []⟩ =
      .ret none ⟨.add (.lit (.int 1)) .X, ⟨.int 4⟩, [⟨.int 5⟩]⟩ ∧
    (PyNum.int 5).toRat = (5 : Rat) := by
  refine ⟨rfl, ?_⟩
  norm_num [PyNum.toRat]

/-- C3: a token whose payload is not of the declared accepted type (Instances
for Train and Filter, a string path for LoadDataset) is rejected by
check_input with an exception whose message names the actor and the offending
payload type, and the lifecycle never reaches do_execute for it: the result
is the same for every do_execute body and the actor state is returned
unchanged, so the rejected token has no side effects. -/
theorem check_input_rejects_wrong_type {σ : Type} (fullName : String)
    (p : Payload) (s : σ) (f g k : σ → PyResult σ)
    (hInst : p.isInstances = false) (hStr : p.isStr = false) :
    lifecycleStep (Train.check_input fullName ⟨p⟩) f s =
      .exn ⟨"Exception", fullName ++ ": Unhandled data type: " ++ p.className⟩ s ∧
    lifecycleStep (Filter.check_input fullName (some ⟨p⟩)) g s =
      .exn ⟨"Exception", fullName ++ ": Unhandled class: " ++ p.className⟩ s ∧
    lifecycleStep (LoadDataset.check_input fullName (some ⟨p⟩)) k s =
      .exn ⟨"Exception", fullName ++ ": Unhandled class: " ++ p.className⟩ s := by
  refine ⟨?_, ?_, ?_⟩ <;>
    simp [lifecycleStep, Train.check_input, Filter.check_input,
      LoadDataset.check_input, hInst, hStr]

/-- Witness for C3: an int payload rejected by all three actors, with an
arbitrary do_execute body that would have enqueued a token. -/
theorem check_input_rejects_wrong_type_witness :
    lifecycleStep (Train.check_input "Flow.Train" ⟨.pint 3⟩)
      (fun n => .ret none (n + 1)) (0 : Nat) =
      .exn ⟨"Exception", "Flow.Train" ++ ": Unhandled data type: " ++ (Payload.pint 3).className⟩ 0 ∧
    lifecycleStep (Filter.check_input "Flow.Train" (some ⟨.pint 3⟩))
      (fun n => .ret none (n + 1)) (0 : Nat) =
      .exn ⟨"Exception", "Flow.Train" ++ ": Unhandled class: " ++ (Payload.pint 3).className⟩ 0 ∧
    lifecycleStep (LoadDataset.check_input "Flow.Train" (some ⟨.pint 3⟩))
      (fun n => .ret none (n + 1)) (0 : Nat) =
      .exn ⟨"Exception", "Flow.Train" ++ ": Unhandled class: " ++ (Payload.pint 3).className⟩ 0 :=
  check_input_rejects_wrong_type "Flow.Train" (.pint 3) 0
    (fun n => .ret none (n + 1)) (fun n => .ret none (n + 1))
    (fun n => .ret none (n + 1)) rfl rfl

/-- Counterexample for C6 as stated: over the 3-row source, after the third
token has been retrieved the actor does NOT yet report no-more-output —
has_output() is still true, because the iterator field is only cleared by the
next output() call. The three tokens themselves do come out one row each in
source order. -/
theorem load_dataset_c6_counterexample :
    LoadDataset.do_execute
      (fun q => if q = "data.arff" then .file ⟨1, [10, 20, 30]⟩ else .missing)
      ⟨true, ⟨"data.arff"⟩, [], none⟩ =
      .ret none ⟨true, ⟨"data.arff"⟩, [], some [10, 20, 30]⟩ ∧
    (LoadDataset.drain 3 ⟨true, ⟨"data.arff"⟩, [], some [10, 20, 30]⟩).1 =
      [some ⟨.row 10⟩, some ⟨.row 20⟩, some ⟨.row 30⟩] ∧
    ¬ (LoadDataset.has_output
        (LoadDataset.drain 3 ⟨true, ⟨"data.arff"⟩, [], some [10, 20, 30]⟩).2 = false) := by
  refine ⟨?_, ?_, ?_⟩ <;> decide

/-- C6 amended: LoadDataset in incremental mode over a finite 3-row source
yields exactly 3 output tokens, one row per token, in source order; the
fourth output() call returns none and clears the iterator, and only after
that call does has_output() report no more output (immediately after the
third token it still returns true). -/
theorem load_dataset_incremental_three_rows (n a b c : Nat) (p : String) :
    LoadDataset.do_execute (fun q => if q = p then .file ⟨n, [a, b, c]⟩ else .missing)
      ⟨true, ⟨p⟩, [], none⟩ = .ret none ⟨true, ⟨p⟩, [], some [a, b, c]⟩ ∧
    LoadDataset.drain 3 ⟨true, ⟨p⟩, [], some [a, b, c]⟩ =
      ([some ⟨.row a⟩, some ⟨.row b⟩, some ⟨.row c⟩], ⟨true, ⟨p⟩, [], some []⟩) ∧
    LoadDataset.has_output ⟨true, ⟨p⟩, [], some []⟩ = true ∧
    LoadDataset.output ⟨true, ⟨p⟩, [], some []⟩ = (none, ⟨true, ⟨p⟩, [], none⟩) ∧
    LoadDataset.has_output ⟨true, ⟨p⟩, [], none⟩ = false := by
  refine ⟨?_, ?_, ?_, ?_, ?_⟩ <;>
    simp [LoadDataset.do_execute, LoadDataset.drain, LoadDataset.output,
      LoadDataset.has_output]

/-- C10: whenever the iterator field of LoadDataset is non-none, has_output()
returns true — even when the underlying row sequence is already exhausted
(iterator holding no further rows); the first output() call after exhaustion
returns none instead of a token and clears the iterator field. So has_output()
can return true immediately before an output() call that yields no token. -/
theorem load_dataset_exhausted_iterator (inc : Bool) (inp : Token String)
    (q : List (Token LoadDataset.LPayload)) (rs : List Nat) :
    LoadDataset.has_output ⟨inc, inp, q, some rs⟩ = true ∧
    LoadDataset.has_output ⟨inc, inp, q, some []⟩ = true ∧
    LoadDataset.output ⟨inc, inp, q, some []⟩ = (none, ⟨inc, inp, q, none⟩) := by
  refine ⟨?_, ?_, ?_⟩ <;> simp [LoadDataset.has_output, LoadDataset.output]

/-- C2: Train, Filter and CrossValidate never mutate the configured template
Model/Filter in place: every do_execute operates on a fresh copy, so the heap
cell holding the template (the setup/filter option, shared by reference) is
identical before and after one execution of any of the three, and after any
number of Train executions. -/
theorem templates_never_mutated (h : Heap) (setup fo : Nat) (data : Dataset)
    (s : Filter.St) (llh : String → Dataset → Nat → Int → Rat)
    (folds : Nat) (seed : Int) (discard : Bool)
    (outT : List (Token (ModelContainer Nat Nat)))
    (outF : List (Token Filter.FilteredData))
    (outC : List (Token CrossValidate.CVPayload)) (ds : List Dataset) :
    (heapOf (Train.do_execute h setup data outT))[setup]? = h[setup]? ∧
    (heapOf (Filter.do_execute h fo s data outF))[fo]? = h[fo]? ∧
    (heapOf (CrossValidate.do_execute llh h setup folds seed discard data outC))[setup]? =
      h[setup]? ∧
    (Train.trainMany setup h ds)[setup]? = h[setup]? :=
  ⟨train_heap_preserved h setup data outT,
   filter_heap_preserved h fo s data outF,
   crossvalidate_heap_preserved llh h setup folds seed discard data outC,
   trainMany_heap_preserved setup h ds⟩

/-- C1: the Filter transformer fits a fresh copy of the configured filter on
the first dataset and on every dataset whose schema differs from the cached
header (caching the new header), and reuses the fitted filter without any
refit on a dataset whose schema equals the cached header. Processing A then A
refits once in total (zero additional), A then B with a different schema
refits exactly twice. -/
theorem filter_memoization (h : Heap) (fo : Nat) (tmpl : MObj)
    (hfo : h[fo]? = some tmpl) (A B : Dataset) (hAB : A.schema ≠ B.schema) :
    (∀ (s : Filter.St) (d : Dataset), s.filter = none →
      Filter.refitCheck s d = .ok true) ∧
    (∀ (f hd : Nat) (d : Dataset),
      Filter.refitCheck ⟨some f, some hd⟩ d = .ok (decide (hd ≠ d.schema))) ∧
    (∀ (d : Dataset) (out : List (Token Filter.FilteredData)),
      Filter.do_execute h fo ⟨none, none⟩ d out =
        .ret none (h ++ [⟨tmpl.kind, tmpl.config, some d.schema⟩],
          ⟨some h.length, some d.schema⟩, out ++ [Token.mk ⟨h.length, d⟩])) ∧
    (∀ (f : Nat) (d : Dataset) (out : List (Token Filter.FilteredData)),
      Filter.do_execute h fo ⟨some f, some d.schema⟩ d out =
        .ret none (h, ⟨some f, some d.schema⟩, out ++ [Token.mk ⟨f, d⟩])) ∧
    (Filter.run fo h ⟨none, none⟩ [A, A]).2.2.2 = 1 ∧
    (Filter.run fo h ⟨none, none⟩ [A, B]).2.2.2 = 2 := by
  have h2fo : (h ++ [(⟨tmpl.kind, tmpl.config, some A.schema⟩ : MObj)])[fo]? = some tmpl := by
    rw [lookup_append_left _ _ _ (lt_of_lookup_some hfo)]; exact hfo
  refine ⟨?_, ?_, ?_, ?_, ?_, ?_⟩
  · intro s d hf
    simp [Filter.refitCheck, hf]
  · intro f hd d
    by_cases hhd : hd = d.schema <;>
      simp [Filter.refitCheck, Filter.equal_headers, hhd]
  · exact fun d out => filter_step_fresh hfo d out
  · exact fun f d out => filter_step_same h fo f d.schema d rfl out
  · simp [Filter.run, filter_step_fresh hfo, filter_step_same,
      Filter.refitCheck, Filter.equal_headers]
  · simp [Filter.run, filter_step_fresh hfo, filter_step_diff h2fo _ _ _ hAB,
      Filter.refitCheck, Filter.equal_headers, hAB]

/-- Witness for C1 at a concrete template heap and two datasets with schemas
1 and 2: same schema twice refits once, a schema change refits twice. -/
theorem filter_memoization_witness :
    (Filter.run 0 [⟨.filterKind, "weka.filters.AllFilter", none⟩] ⟨none, none⟩
      [⟨1, []⟩, ⟨1, []⟩]).2.2.2 = 1 ∧
    (Filter.run 0 [⟨.filterKind, "weka.filters.AllFilter", none⟩] ⟨none, none⟩
      [⟨1, []⟩, ⟨2, []⟩]).2.2.2 = 2 :=
  ⟨(filter_memoization [⟨.filterKind, "weka.filters.AllFilter", none⟩] 0
      ⟨.filterKind, "weka.filters.AllFilter", none⟩ rfl ⟨1, []⟩ ⟨2, []⟩
      (by decide)).2.2.2.2.1,
   (filter_memoization [⟨.filterKind, "weka.filters.AllFilter", none⟩] 0
      ⟨.filterKind, "weka.filters.AllFilter", none⟩ rfl ⟨1, []⟩ ⟨2, []⟩
      (by decide)).2.2.2.2.2⟩

/-- C5 evaluated on the code: the classifier branch of
CrossValidate.do_execute calls Evaluation.crossvalidate_model with five
positional arguments against its four-parameter definition in classifiers.py,
so instead of completing with an Evaluation token it raises TypeError and
enqueues nothing; the clusterer branch does enqueue exactly one
log-likelihood token, and any other setup kind returns the
"Unhandled class: ..." error string with no token. -/
theorem crossvalidate_classifier_arity_bug :
    CrossValidate.do_execute (fun _ _ _ _ => 0)
      [⟨.classifier, "weka.classifiers.rules.ZeroR", none⟩] 0 10 1 false ⟨5, []⟩ [] =
      .exn ⟨"TypeError", "crossvalidate_model() takes exactly 5 arguments (6 given)"⟩
        ([⟨.classifier, "weka.classifiers.rules.ZeroR", none⟩,
          ⟨.classifier, "weka.classifiers.rules.ZeroR", none⟩], []) ∧
    CrossValidate.do_execute (fun _ _ _ _ => 0)
      [⟨.clusterer, "weka.clusterers.SimpleKMeans", none⟩] 0 10 1 false ⟨5, []⟩ [] =
      .ret none ([⟨.clusterer, "weka.clusterers.SimpleKMeans", none⟩,
          ⟨.clusterer, "weka.clusterers.SimpleKMeans", none⟩],
        [Token.mk (.loglikelihood 0)]) ∧
    CrossValidate.do_execute (fun _ _ _ _ => 0)
      [⟨.other "weka.associations.Apriori", "apriori", none⟩] 0 10 1 false ⟨5, []⟩ [] =
      .ret (some ("Unhandled class: " ++ "weka.associations.Apriori"))
        ([⟨.other "weka.associations.Apriori", "apriori", none⟩], []) :=
  ⟨rfl, rfl, rfl⟩

/-- C7: ModelReader on a file deserializing to exactly two objects — a
recognized model and a schema — forwards exactly one token with a container
holding both the model and the header; on exactly one recognized object, a
container with the model only; on any other object count, the explicit
count-mismatch error string and no token. -/
theorem model_reader_object_counts (fname : String) (m : ModelReader.SerObj)
    (sch : Nat) (out : List (Token (ModelContainer ModelReader.SerObj Nat)))
    (hm : m.isClassifier = true ∨ m.isClusterer = true) :
    ModelReader.do_execute fname [m, .schemaObj sch] out =
      .ret none (out ++ [Token.mk ⟨m, some sch⟩]) ∧
    ModelReader.do_execute fname [m] out = .ret none (out ++ [Token.mk ⟨m, none⟩]) ∧
    (∀ (data : List ModelReader.SerObj), data.length ≠ 1 → data.length ≠ 2 →
      ModelReader.do_execute fname data out =
        .ret (some ("Expected 1 or 2 objects, but got " ++ toString data.length ++
          " instead reading: " ++ fname)) out) := by
  refine ⟨?_, ?_, ?_⟩
  · cases m <;>
      simp_all [ModelReader.do_execute, ModelReader.SerObj.isClassifier,
        ModelReader.SerObj.isClusterer, ModelReader.asSchema]
  · cases m <;>
      simp_all [ModelReader.do_execute, ModelReader.SerObj.isClassifier,
        ModelReader.SerObj.isClusterer]
  · intro data h1 h2
    match data with
    | [] => rfl
    | [a] => exact absurd rfl h1
    | [a, b] => exact absurd rfl h2
    | a :: b :: c :: tl => rfl

/-- Witness for C7: a classifier plus a schema gives a full container; three
objects give the count-mismatch error. -/
theorem model_reader_object_counts_witness :
    ModelReader.do_execute "model.ser" [.classifierObj "ZeroR", .schemaObj 3] [] =
      .ret none ([] ++ [Token.mk ⟨.classifierObj "ZeroR", some 3⟩]) ∧
    ModelReader.do_execute "model.ser"
      [.classifierObj "ZeroR", .schemaObj 1, .schemaObj 2] [] =
      .ret (some ("Expected 1 or 2 objects, but got " ++
        toString ([ModelReader.SerObj.classifierObj "ZeroR",
          .schemaObj 1, .schemaObj 2].length) ++ " instead reading: " ++ "model.ser")) [] :=
  ⟨(model_reader_object_counts "model.ser" (.classifierObj "ZeroR") 3 []
      (Or.inl rfl)).1,
   (model_reader_object_counts "model.ser" (.classifierObj "ZeroR") 3 []
      (Or.inl rfl)).2.2 _ (by decide) (by decide)⟩

end PWW
